import Mathlib

/-!
Verification of the T3Chat server's AI completion gateway.

This file shallowly embeds the parts of the Rust server that implement the
multi-provider completion flow:

* the database rows and repository queries
  (src/server/src/db/models/*, src/server/src/db/repositories/*),
* the provider registry and the per-vendor request builders
  (src/server/src/ai/manager.rs, src/server/src/ai/providers/*.rs),
* the completion handlers (src/server/src/api/v1/chat/mod.rs),
* the messages-table migration
  (src/server/migration/src/m20250101_000005_create_messages_table.rs),
* the credential mutations (src/server/src/db/repositories/user_api_key_repository.rs).

Database tables are lists of rows; UUID generation is modelled by a fresh-id
counter on the state; timestamps that no verified operation reads are elided.
The single outbound vendor HTTP call made by a completion request is an
explicit oracle parameter (an `Except` value) threaded into the handler.
-/

namespace T3Chat

/-- Provider enum from src/server/src/db/models/ai_model.rs (string values
openai, anthropic, google, deepseek, ollama). -/
inductive AiProvider
  | openAI
  | anthropic
  | google
  | deepSeek
  | ollama
deriving DecidableEq, Repr

/-- Message role enum from src/server/src/db/models/message.rs. -/
inductive MessageRole
  | user
  | assistant
  | system
deriving DecidableEq, Repr

/-- Persisted message row (MessageModel in src/server/src/db/models/message.rs).
The opaque JSON metadata value is modelled as an optional string; `created_at`
is elided (no verified operation reads it). Ids are Nat stand-ins for UUIDs. -/
structure Message where
  id : Nat
  chat_id : Nat
  role : MessageRole
  content : String
  metadata : Option String
  parent_message_id : Option Nat
  sequence_number : Int
  tokens_used : Option Int
  model_used : Option String
deriving DecidableEq, Repr

/-- Persisted chat row (ChatModel in src/server/src/db/models/chat.rs), keeping
the fields the completion flow reads: id, owner, and the soft-delete marker
(`deleted_at`, an optional timestamp modelled as Nat). -/
structure Chat where
  id : Nat
  user_id : String
  title : String
  deleted_at : Option Nat
deriving DecidableEq, Repr

/-- Persisted credential row (UserApiKeyModel in
src/server/src/db/models/user_api_key.rs); timestamps elided. -/
structure ApiKey where
  id : Nat
  user_id : String
  provider : AiProvider
  encrypted_key : String
  is_default : Bool
deriving DecidableEq, Repr

/-- The relational store: one list per table, plus a counter that models
`Uuid::new_v4()` freshness for newly inserted rows. -/
structure DbState where
  chats : List Chat
  messages : List Message
  api_keys : List ApiKey
  next_id : Nat
deriving Repr

/-- Database errors (emixdiesel Error); the repositories only build them from
fixed message strings, so a string suffices. -/
abbrev DbResult (α : Type) := Except String α

/-- ChatRepository::get (src/server/src/db/repositories/chat_repository.rs,
lines 104-119): first chat row matching id AND user_id AND deleted_at IS NULL.
The completion handler's chat lookup (get_by_id) resolves to this, the
repository's only chat-by-id query. -/
def chatRepoGet (db : DbState) (id : Nat) (user_id : String) : Option Chat :=
  db.chats.find? fun c =>
    decide (c.id = id) && decide (c.user_id = user_id) && decide (c.deleted_at = none)

/-- MessageRepository::list_by_chat (message_repository.rs, lines 34-57):
verifies a chat with the given id belongs to the user (note: WITHOUT a
deleted_at filter), then returns the chat's messages ordered by
sequence_number ascending. -/
def listByChat (db : DbState) (chat_id : Nat) (user_id : String) :
    DbResult (List Message) :=
  match db.chats.find? (fun c => decide (c.id = chat_id) && decide (c.user_id = user_id)) with
  | none => .error "Chat not found"
  | some _ =>
    .ok ((db.messages.filter (fun m => decide (m.chat_id = chat_id))).mergeSort
      (fun a b => decide (a.sequence_number ≤ b.sequence_number)))

/-- SQL MAX aggregate: NULL on an empty set, otherwise the maximum. -/
def sqlMax : List Int → Option Int
  | [] => none
  | x :: xs =>
    match sqlMax xs with
    | none => some x
    | some v => some (max x v)

/-- MessageRepository::get_next_sequence_number (message_repository.rs, lines
75-90; the identical copy in chat_repository.rs lines 233-248):
SELECT max(sequence_number) WHERE chat_id = $1, then `.unwrap_or(0) + 1`. -/
def getNextSequenceNumber (db : DbState) (chat_id : Nat) : Int :=
  (sqlMax ((db.messages.filter (fun m => decide (m.chat_id = chat_id))).map
    (fun m => m.sequence_number))).getD 0 + 1

/-- CreateMessageDto (src/server/src/db/models/message.rs). -/
structure CreateMessageDto where
  chat_id : Nat
  role : MessageRole
  content : String
  metadata : Option String
  parent_message_id : Option Nat
  sequence_number : Int
deriving DecidableEq, Repr

/-- MessageRepository::create (message_repository.rs, lines 59-73) composed
with `From<CreateMessageDto> for NewMessage`: inserts a row with a fresh id,
tokens_used and model_used NULL, and returns the inserted row. -/
def createMessage (db : DbState) (dto : CreateMessageDto) : Message × DbState :=
  let m : Message :=
    { id := db.next_id
      chat_id := dto.chat_id
      role := dto.role
      content := dto.content
      metadata := dto.metadata
      parent_message_id := dto.parent_message_id
      sequence_number := dto.sequence_number
      tokens_used := none
      model_used := none }
  (m, { db with messages := db.messages ++ [m], next_id := db.next_id + 1 })

/-- MessageRepository::update_tokens_used (message_repository.rs, lines
92-120): errors if the message does not exist, otherwise sets tokens_used and
model_used on the row with the given id. -/
def updateTokensUsed (db : DbState) (id : Nat) (tokens : Int) (model : String) :
    DbResult DbState :=
  if (db.messages.find? (fun m => decide (m.id = id))).isSome then
    .ok { db with
      messages := db.messages.map fun m =>
        if m.id = id then { m with tokens_used := some tokens, model_used := some model } else m }
  else .error "Message not found"

/-- UserApiKeyRepository::get_default_for_provider (user_api_key_repository.rs,
lines 53-72): first credential matching user_id AND provider AND is_default. -/
def getDefaultForProvider (keys : List ApiKey) (user_id : String)
    (provider : AiProvider) : Option ApiKey :=
  keys.find? fun k =>
    decide (k.user_id = user_id) && decide (k.provider = provider) && k.is_default

/-- CreateUserApiKeyDto (src/server/src/db/models/user_api_key.rs). -/
structure CreateUserApiKeyDto where
  user_id : String
  provider : AiProvider
  encrypted_key : String
  is_default : Bool
deriving DecidableEq, Repr

/-- UserApiKeyRepository::create (user_api_key_repository.rs, lines 74-88)
composed with `From<CreateUserApiKeyDto> for NewUserApiKey`: a plain insert
that copies is_default from the DTO; no other row is touched. -/
def createApiKey (db : DbState) (dto : CreateUserApiKeyDto) : ApiKey × DbState :=
  let k : ApiKey :=
    { id := db.next_id
      user_id := dto.user_id
      provider := dto.provider
      encrypted_key := dto.encrypted_key
      is_default := dto.is_default }
  (k, { db with api_keys := db.api_keys ++ [k], next_id := db.next_id + 1 })

/-- The first UPDATE of set_default (user_api_key_repository.rs, lines
150-157): unset is_default on every row of (user_id, provider). -/
def clearDefaultFor (user_id : String) (prov : AiProvider) (k : ApiKey) : ApiKey :=
  if k.user_id = user_id ∧ k.provider = prov then { k with is_default := false } else k

/-- The second UPDATE of set_default (user_api_key_repository.rs, lines
160-166): set is_default on the row with the target primary key. -/
def setDefaultOn (id : Nat) (k : ApiKey) : ApiKey :=
  if k.id = id then { k with is_default := true } else k

/-- UserApiKeyRepository::set_default (user_api_key_repository.rs, lines
130-174), one transaction: look the target key up BY ID ONLY; if absent the
transaction rolls back (`none`, state unchanged); otherwise clear is_default
on every key of (user_id, target.provider) and then set is_default on the
target row. -/
def setDefault (db : DbState) (id : Nat) (user_id : String) : Option DbState :=
  match db.api_keys.find? (fun k => decide (k.id = id)) with
  | none => none
  | some key =>
    let cleared := db.api_keys.map (clearDefaultFor user_id key.provider)
    some { db with api_keys := cleared.map (setDefaultOn id) }

/-- Normalized chat message (src/server/src/ai/types.rs). -/
structure ChatMessage where
  role : MessageRole
  content : String
deriving DecidableEq, Repr

/-- Normalized provider request (ChatRequest in src/server/src/ai/types.rs). -/
structure AIChatRequest where
  model : String
  messages : List ChatMessage
  temperature : Option Float
  max_tokens : Option Nat
  stream : Bool
deriving Repr

/-- Normalized provider response (ChatResponse in src/server/src/ai/types.rs). -/
structure ChatResponse where
  content : String
  model : String
  tokens_used : Option Nat
  finish_reason : Option String
deriving DecidableEq, Repr

/-- Streaming chunk (ChatResponseChunk in src/server/src/ai/types.rs). -/
structure ChatResponseChunk where
  content : String
  done : Bool
  model : Option String
deriving DecidableEq, Repr

/-- Vendor adapters held by the registry (ProviderWrapper in
src/server/src/ai/manager.rs): only OpenAI, Anthropic and Google variants
exist; each holds the api key it was built from. -/
inductive ProviderWrapper
  | openAI (api_key : String)
  | anthropic (api_key : String)
  | google (api_key : String)
deriving DecidableEq, Repr

/-- The adapter built for one (provider, api_key) entry by the loop body of
ProviderManager::new (manager.rs, lines 67-75): DeepSeek and Ollama hit the
catch-all `continue` arm and produce no adapter. -/
def mkAdapter : AiProvider → String → Option ProviderWrapper
  | .openAI, k => some (.openAI k)
  | .anthropic, k => some (.anthropic k)
  | .google, k => some (.google k)
  | .deepSeek, _ => none
  | .ollama, _ => none

/-- The registry's provider map (HashMap<AiProvider, Arc<ProviderWrapper>>),
modelled as an association list with HashMap::insert replace-on-collision
semantics. -/
structure ProviderManager where
  providers : List (AiProvider × ProviderWrapper)
deriving DecidableEq, Repr

/-- HashMap::insert: replace any existing entry for the key, add the pair. -/
def insertProvider (l : List (AiProvider × ProviderWrapper)) (p : AiProvider)
    (w : ProviderWrapper) : List (AiProvider × ProviderWrapper) :=
  l.filter (fun q => decide (q.1 ≠ p)) ++ [(p, w)]

/-- ProviderManager::new (manager.rs, lines 64-78): fold the credential map,
building an adapter per supported provider and skipping DeepSeek/Ollama. -/
def ProviderManager.new (api_keys : List (AiProvider × String)) : ProviderManager :=
  ⟨api_keys.foldl
    (fun acc pk =>
      match mkAdapter pk.1 pk.2 with
      | none => acc
      | some w => insertProvider acc pk.1 w)
    []⟩

/-- ProviderManager::get_provider (manager.rs, lines 80-82). -/
def ProviderManager.get_provider (m : ProviderManager) (p : AiProvider) :
    Option ProviderWrapper :=
  (m.providers.find? (fun q => decide (q.1 = p))).map (fun q => q.2)

/-- Role vocabulary sent to OpenAI (openai.rs, lines 60-64). -/
def openaiRole : MessageRole → String
  | .user => "user"
  | .assistant => "assistant"
  | .system => "system"

/-- Role vocabulary sent to Anthropic (anthropic.rs, lines 61-65). -/
def anthropicRole : MessageRole → String
  | .user => "user"
  | .assistant => "assistant"
  | .system => "system"

/-- Role vocabulary sent to Google (google.rs, lines 73-77): assistant maps to
"model" and a system turn is folded into a "user" turn. -/
def googleRole : MessageRole → String
  | .user => "user"
  | .assistant => "model"
  | .system => "user"

/-- Wire message for OpenAI and Anthropic. -/
structure VendorMessage where
  role : String
  content : String
deriving DecidableEq, Repr

/-- OpenAIRequest (openai.rs, lines 24-30): optional temperature and
max_tokens serialized as given. -/
structure OpenAIRequest where
  model : String
  messages : List VendorMessage
  temperature : Option Float
  max_tokens : Option Nat
deriving Repr

/-- AnthropicRequest (anthropic.rs, lines 24-30): max_tokens is a REQUIRED
field of the vendor request, not an option. -/
structure AnthropicRequest where
  model : String
  messages : List VendorMessage
  max_tokens : Nat
  temperature : Option Float
deriving Repr

/-- GoogleGenerationConfig (google.rs, lines 41-45). -/
structure GoogleGenerationConfig where
  temperature : Option Float
  max_output_tokens : Option Nat
deriving Repr

/-- GooglePart and GoogleContent flattened (google.rs, lines 30-39): each
normalized message becomes one content with a single text part. -/
structure GoogleContent where
  role : String
  text : String
deriving DecidableEq, Repr

/-- GoogleRequest (google.rs, lines 24-28). -/
structure GoogleRequest where
  contents : List GoogleContent
  generation_config : GoogleGenerationConfig
deriving Repr

/-- Vendor request built by OpenAIProvider::chat (openai.rs, lines 56-74):
temperature and max_tokens are copied through unchanged. -/
def OpenAIProvider.buildRequest (request : AIChatRequest) : OpenAIRequest :=
  { model := request.model
    messages := request.messages.map fun m => ⟨openaiRole m.role, m.content⟩
    temperature := request.temperature
    max_tokens := request.max_tokens }

/-- Vendor request built by AnthropicProvider::chat (anthropic.rs, lines
57-75): temperature is copied through, but max_tokens is
`request.max_tokens.unwrap_or(1024)`. -/
def AnthropicProvider.buildRequest (request : AIChatRequest) : AnthropicRequest :=
  { model := request.model
    messages := request.messages.map fun m => ⟨anthropicRole m.role, m.content⟩
    max_tokens := request.max_tokens.getD 1024
    temperature := request.temperature }

/-- Vendor request built by GoogleProvider::chat (google.rs, lines 69-88):
temperature and max_tokens are copied into generation_config unchanged. -/
def GoogleProvider.buildRequest (request : AIChatRequest) : GoogleRequest :=
  { contents := request.messages.map fun m => ⟨googleRole m.role, m.content⟩
    generation_config :=
      { temperature := request.temperature
        max_output_tokens := request.max_tokens } }

/-- Max-token bound as it appears on the wire, per vendor: present values for
OpenAI/Google are optional fields, Anthropic always sends one. -/
def openaiSentMaxTokens (r : AIChatRequest) : Option Nat :=
  (OpenAIProvider.buildRequest r).max_tokens

/-- Wire view of the Anthropic max-token field: the field is mandatory in
AnthropicRequest, so the built request always carries a value. -/
def anthropicSentMaxTokens (r : AIChatRequest) : Option Nat :=
  some (AnthropicProvider.buildRequest r).max_tokens

/-- Wire view of the Google max-token field. -/
def googleSentMaxTokens (r : AIChatRequest) : Option Nat :=
  (GoogleProvider.buildRequest r).generation_config.max_output_tokens

/-- Body shared by OpenAIProvider::stream_chat (openai.rs, lines 102-114),
AnthropicProvider::stream_chat (anthropic.rs, lines 101-111) and
GoogleProvider::stream_chat (google.rs, lines 123-133): run the non-streaming
chat call, propagate its error, and otherwise yield the single done-marked
chunk carrying the full response content and model. -/
def streamChunks (chatResult : Except Unit ChatResponse) :
    Except Unit (List ChatResponseChunk) :=
  match chatResult with
  | .error e => .error e
  | .ok response => .ok [{ content := response.content, done := true, model := some response.model }]

/-- HTTP status codes the completion handlers return
(src/server/src/api/v1/chat/mod.rs). -/
inductive StatusCode
  | badRequest
  | notFound
  | internalServerError
deriving DecidableEq, Repr

/-- Request payload of the completion endpoint (ChatRequest in
src/server/src/api/v1/chat/mod.rs, lines 16-25). -/
structure ChatPayload where
  chat_id : Nat
  message : String
  model_provider : String
  model_id : String
  temperature : Option Float
  max_tokens : Option Nat
  stream : Option Bool
deriving Repr

/-- Response body of the completion endpoint (ChatCompletionResponse,
chat/mod.rs lines 27-33). -/
structure ChatCompletionResponse where
  content : String
  model : String
  tokens_used : Option Nat
  finish_reason : Option String
deriving DecidableEq, Repr

/-- Provider-string parsing in the chat handler (chat/mod.rs, lines 50-57);
the same match appears in create_key (user_api_keys/mod.rs, lines 92-99). -/
def parseProvider : String → Option AiProvider
  | "openai" => some .openAI
  | "anthropic" => some .anthropic
  | "google" => some .google
  | "deepseek" => some .deepSeek
  | "ollama" => some .ollama
  | _ => none

/-- The AIChatRequest the handler sends to the adapter (chat/mod.rs, lines
104-110): stream is hard-coded to false regardless of the payload. -/
def buildAiRequest (payload : ChatPayload) (ai_messages : List ChatMessage) :
    AIChatRequest :=
  { model := payload.model_id
    messages := ai_messages
    temperature := payload.temperature
    max_tokens := payload.max_tokens
    stream := false }

/-- The non-streaming completion handler (chat in chat/mod.rs, lines 36-172).
The outcome of the single outbound vendor call `ai_provider.chat(ai_request)`
is the `providerResult` oracle argument; every other step is embedded from the
source in order. Returns the HTTP-level result and the final store. -/
def chat (db : DbState) (user_id : String) (payload : ChatPayload)
    (providerResult : Except Unit ChatResponse) :
    Except StatusCode ChatCompletionResponse × DbState :=
  match chatRepoGet db payload.chat_id user_id with
  | none => (.error .notFound, db)
  | some _chat =>
    match parseProvider payload.model_provider with
    | none => (.error .badRequest, db)
    | some provider =>
      match getDefaultForProvider db.api_keys user_id provider with
      | none => (.error .badRequest, db)
      | some api_key =>
        let decrypted_key := api_key.encrypted_key
        match listByChat db payload.chat_id user_id with
        | .error _ => (.error .internalServerError, db)
        | .ok messages =>
          let ai_messages :=
            messages.map (fun m => ChatMessage.mk m.role m.content) ++
              [ChatMessage.mk .user payload.message]
          let provider_manager := ProviderManager.new [(provider, decrypted_key)]
          match provider_manager.get_provider provider with
          | none => (.error .badRequest, db)
          | some _ai_provider =>
            let _ai_request := buildAiRequest payload ai_messages
            match providerResult with
            | .error _ => (.error .internalServerError, db)
            | .ok ai_response =>
              let user_seq := getNextSequenceNumber db payload.chat_id
              let userInsert := createMessage db
                { chat_id := payload.chat_id
                  role := .user
                  content := payload.message
                  metadata := none
                  parent_message_id := none
                  sequence_number := user_seq }
              let db1 := userInsert.2
              let assistant_seq := getNextSequenceNumber db1 payload.chat_id
              let assistantInsert := createMessage db1
                { chat_id := payload.chat_id
                  role := .assistant
                  content := ai_response.content
                  metadata := none
                  parent_message_id := none
                  sequence_number := assistant_seq }
              let assistant_message := assistantInsert.1
              let db2 := assistantInsert.2
              let response : ChatCompletionResponse :=
                { content := ai_response.content
                  model := ai_response.model
                  tokens_used := ai_response.tokens_used
                  finish_reason := ai_response.finish_reason }
              match ai_response.tokens_used with
              | some tokens =>
                match updateTokensUsed db2 assistant_message.id (Int.ofNat tokens)
                    ai_response.model with
                | .error _ => (.error .internalServerError, db2)
                | .ok db3 => (.ok response, db3)
              | none => (.ok response, db2)

/-- The streaming entry point (stream_chat in chat/mod.rs, lines 175-189): it
delegates to the non-streaming handler and re-serializes its body; the JSON
re-serialization is identity on the modelled response. -/
def stream_chat (db : DbState) (user_id : String) (payload : ChatPayload)
    (providerResult : Except Unit ChatResponse) :
    Except StatusCode ChatCompletionResponse × DbState :=
  chat db user_id payload providerResult

/-- The Conversation Assembler: the context-building fragment of the chat
handler (chat/mod.rs, lines 71-91) on top of
MessageRepository::list_by_chat — load the chat's messages, map each to the
normalized shape, then append the new user turn. -/
def buildContext (db : DbState) (chat_id : Nat) (user_id : String)
    (new_user_text : String) : DbResult (List ChatMessage) :=
  match listByChat db chat_id user_id with
  | .error e => .error e
  | .ok messages =>
    .ok (messages.map (fun m => ChatMessage.mk m.role m.content) ++
      [ChatMessage.mk .user new_user_text])

/-- A schema index declaration, as produced by sea_orm Index::create():
`unique` records whether `.unique()` was called on the builder. -/
structure IndexDef where
  name : String
  table : String
  columns : List String
  unique : Bool
deriving DecidableEq, Repr

/-- The secondary indexes created by Migration::up in
m20250101_000005_create_messages_table.rs (lines 53-74): both Index::create()
builders are used without a `.unique()` call, so both indexes are non-unique.
The only uniqueness constraint on the table is the primary key on `id`. -/
def messagesTableIndexes : List IndexDef :=
  [ { name := "idx-messages-chat_id-sequence"
      table := "messages"
      columns := ["chat_id", "sequence_number"]
      unique := false },
    { name := "idx-messages-parent_message_id"
      table := "messages"
      columns := ["parent_message_id"]
      unique := false } ]

/-- One repository-level credential mutation: UserApiKeyRepository::create or
UserApiKeyRepository::set_default. -/
inductive KeyOp
  | create (dto : CreateUserApiKeyDto)
  | setDef (id : Nat) (user_id : String)
deriving Repr

/-- Run one credential mutation; a set_default whose transaction rolls back
(target id not found) leaves the store unchanged. -/
def applyKeyOp (db : DbState) : KeyOp → DbState
  | .create dto => (createApiKey db dto).2
  | .setDef id uid => (setDefault db id uid).getD db

/-- Run a sequence of credential mutations. -/
def applyKeyOps (db : DbState) (ops : List KeyOp) : DbState :=
  ops.foldl applyKeyOp db

/-- The credentials of (user, provider) currently flagged as default. -/
def defaultKeys (keys : List ApiKey) (u : String) (p : AiProvider) : List ApiKey :=
  keys.filter fun k => decide (k.user_id = u) && decide (k.provider = p) && k.is_default

/-- Single-default invariant: at most one default credential per
(user, provider) pair. -/
def AtMostOneDefault (db : DbState) : Prop :=
  ∀ u p, (defaultKeys db.api_keys u p).length ≤ 1

/-- Freshness of the UUID counter over the credential table. -/
def KeysFresh (db : DbState) : Prop :=
  ∀ k ∈ db.api_keys, k.id < db.next_id

/-- Primary-key uniqueness of the credential table. -/
def KeyIdsNodup (db : DbState) : Prop :=
  (db.api_keys.map (fun k => k.id)).Nodup

/-- Restrictions under which the single-default invariant is actually
preserved by the repository code: a create must not itself claim the default
flag, and a set_default caller must own the target credential (the only call
site, create_key in user_api_keys/mod.rs line 120, satisfies both by invoking
set_default on a key it just created for the same user). -/
def opValid (db : DbState) : KeyOp → Prop
  | .create dto => dto.is_default = false
  | .setDef id uid => ∀ k ∈ db.api_keys, k.id = id → k.user_id = uid

/-- A sequence of credential mutations each valid in the state it runs in. -/
inductive ValidSeq : DbState → List KeyOp → Prop
  | nil (db : DbState) : ValidSeq db []
  | cons {db : DbState} {op : KeyOp} {ops : List KeyOp} :
      opValid db op → ValidSeq (applyKeyOp db op) ops → ValidSeq db (op :: ops)

/-! Concrete fixtures used by witnesses and counterexamples. -/

/-- A live chat owned by alice. -/
def aliceChat : Chat :=
  { id := 1, user_id := "alice", title := "t", deleted_at := none }

/-- A soft-deleted chat owned by alice. -/
def deletedChat : Chat :=
  { id := 2, user_id := "alice", title := "t", deleted_at := some 5 }

/-- A default openai credential of alice. -/
def aliceKey : ApiKey :=
  { id := 10, user_id := "alice", provider := .openAI, encrypted_key := "sk", is_default := true }

/-- First stored message of chat 1. -/
def msg1 : Message :=
  { id := 3, chat_id := 1, role := .user, content := "hello", metadata := none,
    parent_message_id := none, sequence_number := 1, tokens_used := none, model_used := none }

/-- Second stored message of chat 1. -/
def msg2 : Message :=
  { id := 4, chat_id := 1, role := .assistant, content := "hi", metadata := none,
    parent_message_id := none, sequence_number := 2, tokens_used := some 5,
    model_used := some "gpt-4" }

/-- A populated store: two chats of alice (one soft-deleted), two messages in
chat 1, one default openai credential. -/
def exampleDb : DbState :=
  { chats := [aliceChat, deletedChat], messages := [msg1, msg2],
    api_keys := [aliceKey], next_id := 100 }

/-- A completion request payload aimed at chat 1 via openai. -/
def examplePayload : ChatPayload :=
  { chat_id := 1, message := "ping", model_provider := "openai", model_id := "gpt-4",
    temperature := none, max_tokens := none, stream := some true }

/-- A vendor response used as the provider-call oracle. -/
def exampleResponse : ChatResponse :=
  { content := "pong", model := "gpt-4", tokens_used := some 7, finish_reason := some "stop" }

/-- The empty store. -/
def dbEmpty : DbState :=
  { chats := [], messages := [], api_keys := [], next_id := 0 }

/-! Helper lemmas about the SQL MAX aggregate. -/

theorem sqlMax_eq_none_iff (l : List Int) : sqlMax l = none ↔ l = [] := by
  cases l with
  | nil => simp [sqlMax]
  | cons x xs =>
    simp only [sqlMax]
    cases sqlMax xs <;> simp

theorem sqlMax_mem {l : List Int} {v : Int} (h : sqlMax l = some v) : v ∈ l := by
  induction l generalizing v with
  | nil => simp [sqlMax] at h
  | cons x xs ih =>
    simp only [sqlMax] at h
    cases hxs : sqlMax xs with
    | none => rw [hxs] at h; simp at h; simp [h]
    | some w =>
      rw [hxs] at h
      simp at h
      rcases max_choice x w with hm | hm <;> rw [hm] at h
      · simp [h]
      · exact List.mem_cons_of_mem _ (h ▸ ih hxs)

theorem le_sqlMax {l : List Int} {v : Int} (h : sqlMax l = some v) :
    ∀ x ∈ l, x ≤ v := by
  induction l generalizing v with
  | nil => simp
  | cons y ys ih =>
    intro x hx
    simp only [sqlMax] at h
    rcases List.mem_cons.1 hx with hx | hx
    · cases hys : sqlMax ys with
      | none => rw [hys] at h; simp at h; omega
      | some w => rw [hys] at h; simp at h; subst hx; omega
    · cases hys : sqlMax ys with
      | none => rw [sqlMax_eq_none_iff] at hys; simp [hys] at hx
      | some w =>
        rw [hys] at h
        simp at h
        have := ih hys x hx
        omega

theorem sqlMax_append_singleton (l : List Int) (x : Int) :
    sqlMax (l ++ [x]) = some ((sqlMax l).elim x (fun v => max v x)) := by
  induction l with
  | nil => simp [sqlMax]
  | cons y ys ih =>
    cases hys : sqlMax ys with
    | none =>
      have hnil := (sqlMax_eq_none_iff ys).1 hys
      subst hnil
      simp [sqlMax]
    | some v =>
      rw [hys] at ih
      simp only [Option.elim] at ih
      show sqlMax (y :: (ys ++ [x])) = _
      simp only [sqlMax, ih, hys]
      simp [max_assoc]

/-- Inserting a message whose sequence number is the freshly computed
next-sequence value bumps the next-sequence value by exactly one. -/
theorem getNext_after_insert (db : DbState) (cid : Nat) (um : Message)
    (hc : um.chat_id = cid)
    (hs : um.sequence_number = getNextSequenceNumber db cid) :
    getNextSequenceNumber
        { db with messages := db.messages ++ [um], next_id := db.next_id + 1 } cid =
      getNextSequenceNumber db cid + 1 := by
  unfold getNextSequenceNumber at *
  simp only [List.filter_append, List.map_append]
  have hf : List.filter (fun m => decide (m.chat_id = cid)) [um] = [um] := by
    simp [hc]
  rw [hf]
  simp only [List.map_cons, List.map_nil]
  rw [sqlMax_append_singleton]
  cases hm : sqlMax ((db.messages.filter (fun m => decide (m.chat_id = cid))).map
      (fun m => m.sequence_number)) with
  | none => rw [hm] at hs; simp at hs; simp [hs]
  | some v =>
    rw [hm] at hs
    simp at hs
    simp [hs, max_eq_right]

/-- A message update succeeds whenever the target row exists, and rewrites
exactly the rows carrying the target id. -/
theorem updateTokensUsed_spec (db : DbState) (id : Nat) (t : Int) (model : String)
    (hmem : ∃ m ∈ db.messages, m.id = id) :
    updateTokensUsed db id t model =
      .ok { db with
        messages := db.messages.map fun m =>
          if m.id = id then { m with tokens_used := some t, model_used := some model }
          else m } := by
  have hs : (db.messages.find? (fun m => decide (m.id = id))).isSome = true := by
    rw [List.find?_isSome]
    simpa using hmem
  simp [updateTokensUsed, hs]

/-- Applying the token update to a table whose only row with the target id is
the final one leaves every other row unchanged. -/
theorem map_update_append (l : List Message) (um am : Message) (id : Nat)
    (t : Int) (model : String)
    (hl : ∀ m ∈ l, m.id ≠ id) (hum : um.id ≠ id) (ham : am.id = id) :
    ((l ++ [um, am]).map fun m =>
        if m.id = id then { m with tokens_used := some t, model_used := some model }
        else m) =
      l ++ [um, { am with tokens_used := some t, model_used := some model }] := by
  rw [List.map_append]
  congr 1
  · have h0 : ∀ m ∈ l,
        (if m.id = id then
          { m with tokens_used := some t, model_used := some model } else m) = m :=
      fun m hm => by simp [hl m hm]
    rw [List.map_congr_left h0]
    simp
  · simp [hum, ham]

/-- The user-turn row the handler inserts on the success path. -/
def userTurnMsg (db : DbState) (payload : ChatPayload) : Message :=
  { id := db.next_id
    chat_id := payload.chat_id
    role := .user
    content := payload.message
    metadata := none
    parent_message_id := none
    sequence_number := getNextSequenceNumber db payload.chat_id
    tokens_used := none
    model_used := none }

/-- The store after the handler has inserted the user turn. -/
def dbAfterUserTurn (db : DbState) (payload : ChatPayload) : DbState :=
  { db with
    messages := db.messages ++ [userTurnMsg db payload]
    next_id := db.next_id + 1 }

/-- The assistant-turn row the handler inserts on the success path, before the
optional token-usage update. -/
def assistantTurnMsg (db : DbState) (payload : ChatPayload) (r : ChatResponse) : Message :=
  { id := db.next_id + 1
    chat_id := payload.chat_id
    role := .assistant
    content := r.content
    metadata := none
    parent_message_id := none
    sequence_number := getNextSequenceNumber (dbAfterUserTurn db payload) payload.chat_id
    tokens_used := none
    model_used := none }

/-- The success path of the completion handler: when it returns 200 it has
appended exactly two rows to the messages table — the user turn numbered with
the next sequence value of the incoming store, then the assistant turn
numbered with the next sequence value RECOMPUTED on the store that already
holds the user turn. -/
theorem chat_success_inserts (db : DbState) (uid : String) (payload : ChatPayload)
    (res : Except Unit ChatResponse) (resp : ChatCompletionResponse)
    (hfresh : ∀ m ∈ db.messages, m.id < db.next_id)
    (hok : (chat db uid payload res).1 = .ok resp) :
    ∃ um am,
      (chat db uid payload res).2.messages = db.messages ++ [um, am] ∧
      um.chat_id = payload.chat_id ∧ am.chat_id = payload.chat_id ∧
      um.sequence_number = getNextSequenceNumber db payload.chat_id ∧
      am.sequence_number = getNextSequenceNumber
        { db with messages := db.messages ++ [um], next_id := db.next_id + 1 }
        payload.chat_id := by
  unfold chat at hok ⊢
  rcases hg : chatRepoGet db payload.chat_id uid with _ | c
  · simp [hg] at hok
  simp only [hg] at hok ⊢
  rcases hp : parseProvider payload.model_provider with _ | prov
  · simp [hp] at hok
  simp only [hp] at hok ⊢
  rcases hk : getDefaultForProvider db.api_keys uid prov with _ | key
  · simp [hk] at hok
  simp only [hk] at hok ⊢
  rcases hl : listByChat db payload.chat_id uid with e | msgs
  · simp [hl] at hok
  simp only [hl] at hok ⊢
  rcases hw : (ProviderManager.new [(prov, key.encrypted_key)]).get_provider prov with _ | w
  · simp [hw] at hok
  simp only [hw] at hok ⊢
  rcases res with _ | r
  · simp at hok
  clear hok
  simp only [createMessage]
  rcases htk : r.tokens_used with _ | t
  · refine ⟨userTurnMsg db payload, assistantTurnMsg db payload r, ?_, rfl, rfl, rfl, rfl⟩
    simp [htk, userTurnMsg, assistantTurnMsg, dbAfterUserTurn]
  · refine ⟨userTurnMsg db payload,
      { assistantTurnMsg db payload r with
        tokens_used := some (Int.ofNat t), model_used := some r.model },
      ?_, rfl, rfl, rfl, rfl⟩
    simp only [htk]
    rw [updateTokensUsed_spec]
    · simp only [Except.ok.injEq]
      have hshape : ∀ (l : List Message) (a b : Message), l ++ [a] ++ [b] = l ++ [a, b] :=
        fun l a b => by simp
      show (db.messages ++ [_] ++ [_]).map _ = _
      rw [hshape]
      exact map_update_append db.messages (userTurnMsg db payload)
        (assistantTurnMsg db payload r) (db.next_id + 1) (Int.ofNat t) r.model
        (fun m hm => by have := hfresh m hm; omega) (by simp [userTurnMsg]) rfl
    · exact ⟨assistantTurnMsg db payload r,
        by simp [assistantTurnMsg, dbAfterUserTurn, userTurnMsg], rfl⟩

/-- C2: for every chat, getNextSequenceNumber returns one more than the
maximum sequence number over the chat's messages, and 1 when the chat has no
messages; and the completion handler recomputes it from the updated store for
the assistant turn rather than caching the user turn's value, so on a
successful exchange the two inserted rows receive consecutive numbers. -/
theorem c2_next_sequence_number (db : DbState) (cid : Nat) :
    ((∀ m ∈ db.messages, m.chat_id ≠ cid) → getNextSequenceNumber db cid = 1) ∧
    (∀ m ∈ db.messages, m.chat_id = cid →
      m.sequence_number < getNextSequenceNumber db cid) ∧
    ((∃ m ∈ db.messages, m.chat_id = cid) →
      ∃ m ∈ db.messages, m.chat_id = cid ∧
        getNextSequenceNumber db cid = m.sequence_number + 1) ∧
    (∀ (uid : String) (payload : ChatPayload) (res : Except Unit ChatResponse)
        (resp : ChatCompletionResponse),
      (∀ m ∈ db.messages, m.id < db.next_id) →
      (chat db uid payload res).1 = .ok resp →
      ∃ um am,
        (chat db uid payload res).2.messages = db.messages ++ [um, am] ∧
        um.sequence_number = getNextSequenceNumber db payload.chat_id ∧
        am.sequence_number = getNextSequenceNumber
          { db with messages := db.messages ++ [um], next_id := db.next_id + 1 }
          payload.chat_id ∧
        am.sequence_number = um.sequence_number + 1) := by
  refine ⟨?_, ?_, ?_, ?_⟩
  · intro h
    have hf : db.messages.filter (fun m => decide (m.chat_id = cid)) = [] := by
      rw [List.filter_eq_nil_iff]
      intro m hm
      simp [h m hm]
    unfold getNextSequenceNumber
    rw [hf]
    simp [sqlMax]
  · intro m hm hmc
    unfold getNextSequenceNumber
    cases hmax : sqlMax ((db.messages.filter (fun m => decide (m.chat_id = cid))).map
        (fun m => m.sequence_number)) with
    | none =>
      rw [sqlMax_eq_none_iff] at hmax
      simp at hmax
      exact absurd hmc (hmax m hm)
    | some v =>
      have : m.sequence_number ≤ v := by
        refine le_sqlMax hmax _ ?_
        exact List.mem_map_of_mem _ (List.mem_filter.2 ⟨hm, by simp [hmc]⟩)
      simp
      omega
  · intro ⟨m0, hm0, hm0c⟩
    cases hmax : sqlMax ((db.messages.filter (fun m => decide (m.chat_id = cid))).map
        (fun m => m.sequence_number)) with
    | none =>
      rw [sqlMax_eq_none_iff] at hmax
      simp at hmax
      exact absurd hm0c (hmax m0 hm0)
    | some v =>
      have hv := sqlMax_mem hmax
      simp only [List.mem_map, List.mem_filter] at hv
      obtain ⟨m, ⟨hm, hmc⟩, hms⟩ := hv
      refine ⟨m, hm, by simpa using hmc, ?_⟩
      unfold getNextSequenceNumber
      rw [hmax, hms]
      simp
  · intro uid payload res resp hfresh hok
    obtain ⟨um, am, hmsg, humc, _, hums, hams⟩ :=
      chat_success_inserts db uid payload res resp hfresh hok
    refine ⟨um, am, hmsg, hums, hams, ?_⟩
    rw [hams, hums]
    exact getNext_after_insert db payload.chat_id um humc hums

/-- The completion body a successful run on the example fixtures returns. -/
def exampleCompletion : ChatCompletionResponse :=
  { content := "pong", model := "gpt-4", tokens_used := some 7, finish_reason := some "stop" }

/-- Witness for C2 at concrete stores: the empty store yields 1, the populated
store yields max + 1 attained at a stored message, and a successful exchange
on the populated store appends two consecutively numbered rows. -/
theorem c2_next_sequence_number_witness :
    getNextSequenceNumber dbEmpty 1 = 1 ∧
    (∃ m ∈ exampleDb.messages, m.chat_id = 1 ∧
      getNextSequenceNumber exampleDb 1 = m.sequence_number + 1) ∧
    ∃ um am,
      (chat exampleDb "alice" examplePayload (.ok exampleResponse)).2.messages =
        exampleDb.messages ++ [um, am] ∧
      um.sequence_number = getNextSequenceNumber exampleDb examplePayload.chat_id ∧
      am.sequence_number = getNextSequenceNumber
        { exampleDb with
          messages := exampleDb.messages ++ [um]
          next_id := exampleDb.next_id + 1 } examplePayload.chat_id ∧
      am.sequence_number = um.sequence_number + 1 :=
  ⟨(c2_next_sequence_number dbEmpty 1).1 (by decide),
   (c2_next_sequence_number exampleDb 1).2.2.1 (by decide),
   (c2_next_sequence_number exampleDb 1).2.2.2 "alice" examplePayload
     (.ok exampleResponse) exampleCompletion (by decide) (by rfl)⟩

/-- C3: the messages-table migration declares a plain composite index on
(chat_id, sequence_number) but no unique index at all; evaluated on the
embedded index list, there is a (chat_id, sequence_number) index and every
declared index is non-unique, so the storage schema does not enforce the
uniqueness the spec requires. -/
theorem c3_no_unique_index_on_chat_seq :
    (messagesTableIndexes.filter
      (fun i => decide (i.columns = ["chat_id", "sequence_number"]))).length = 1 ∧
    (messagesTableIndexes.filter (fun i => i.unique)).length = 0 := by
  decide

/-- A normalized request carrying no temperature or max-token bound. -/
def reqNoBounds : AIChatRequest :=
  { model := "claude-3-opus", messages := [], temperature := none, max_tokens := none,
    stream := false }

/-- C9 counterexample: the Anthropic adapter does NOT omit an absent max-token
bound — the vendor request field is mandatory and the adapter fills in 1024,
so the vendor default cannot apply. -/
theorem c9_counterexample :
    reqNoBounds.max_tokens = none ∧ anthropicSentMaxTokens reqNoBounds = some 1024 :=
  ⟨rfl, rfl⟩

/-- C9 (amended): the OpenAI and Google adapters pass temperature and
max-token bounds through unchanged, omitting absent ones so the vendor
default applies; the Anthropic adapter passes temperature through and passes
a present max-token bound unchanged, but substitutes 1024 when the bound is
absent. -/
theorem c9_bounds_passthrough (r : AIChatRequest) :
    (OpenAIProvider.buildRequest r).temperature = r.temperature ∧
    openaiSentMaxTokens r = r.max_tokens ∧
    (GoogleProvider.buildRequest r).generation_config.temperature = r.temperature ∧
    googleSentMaxTokens r = r.max_tokens ∧
    (AnthropicProvider.buildRequest r).temperature = r.temperature ∧
    (∀ n, r.max_tokens = some n → anthropicSentMaxTokens r = some n) ∧
    (r.max_tokens = none → anthropicSentMaxTokens r = some 1024) := by
  refine ⟨rfl, rfl, rfl, rfl, rfl, ?_, ?_⟩
  · intro n h
    simp [anthropicSentMaxTokens, AnthropicProvider.buildRequest, h]
  · intro h
    simp [anthropicSentMaxTokens, AnthropicProvider.buildRequest, h]

/-- Witness for C9: a present bound reaches Anthropic unchanged; an absent one
becomes 1024. -/
theorem c9_bounds_passthrough_witness :
    anthropicSentMaxTokens { reqNoBounds with max_tokens := some 50 } = some 50 ∧
    anthropicSentMaxTokens reqNoBounds = some 1024 :=
  ⟨(c9_bounds_passthrough { reqNoBounds with max_tokens := some 50 }).2.2.2.2.2.1 50 rfl,
   (c9_bounds_passthrough reqNoBounds).2.2.2.2.2.2 rfl⟩

/-- C6 counterexample: a registry built from a credential map that DOES
contain a DeepSeek (resp. Ollama) credential still resolves that provider to
nothing, because ProviderManager::new skips both as unsupported. -/
theorem c6_counterexample :
    (ProviderManager.new [(.deepSeek, "key")]).get_provider .deepSeek = none ∧
    (ProviderManager.new [(.ollama, "key")]).get_provider .ollama = none :=
  ⟨rfl, rfl⟩

theorem exists_mem_insertProvider (acc : List (AiProvider × ProviderWrapper))
    (q : AiProvider) (w0 : ProviderWrapper) (p : AiProvider) :
    (∃ w, (p, w) ∈ insertProvider acc q w0) ↔ (p = q ∨ ∃ w, (p, w) ∈ acc) := by
  simp only [insertProvider, List.mem_append, List.mem_filter, List.mem_singleton,
    Prod.mk.injEq, decide_eq_true_eq]
  constructor
  · rintro ⟨w, ⟨hmem, hne⟩ | ⟨hpq, hw⟩⟩
    · exact Or.inr ⟨w, hmem⟩
    · exact Or.inl hpq
  · rintro (hpq | ⟨w, hmem⟩)
    · exact ⟨w0, Or.inr ⟨hpq, rfl⟩⟩
    · by_cases hpq : p = q
      · exact ⟨w0, Or.inr ⟨hpq, rfl⟩⟩
      · exact ⟨w, Or.inl ⟨hmem, hpq⟩⟩

/-- A provider is supported by the registry construction exactly when
mkAdapter builds an adapter for it. -/
def supportedProvider (p : AiProvider) : Prop :=
  p = .openAI ∨ p = .anthropic ∨ p = .google

theorem mem_foldl_build (l : List (AiProvider × String))
    (acc : List (AiProvider × ProviderWrapper)) (p : AiProvider) :
    (∃ w, (p, w) ∈ l.foldl
        (fun acc pk =>
          match mkAdapter pk.1 pk.2 with
          | none => acc
          | some w => insertProvider acc pk.1 w)
        acc) ↔
      ((supportedProvider p ∧ ∃ k, (p, k) ∈ l) ∨ ∃ w, (p, w) ∈ acc) := by
  induction l generalizing acc with
  | nil => simp
  | cons hd tl ih =>
    obtain ⟨q, s⟩ := hd
    simp only [List.foldl_cons, List.mem_cons, Prod.mk.injEq]
    cases hq : mkAdapter q s with
    | none =>
      rw [ih]
      have hnsup : ¬ supportedProvider q := by
        cases q <;> simp [mkAdapter] at hq <;> simp [supportedProvider]
      constructor
      · rintro (⟨hsup, k, hk⟩ | hacc)
        · exact Or.inl ⟨hsup, k, Or.inr hk⟩
        · exact Or.inr hacc
      · rintro (⟨hsup, k, ⟨hpq, hks⟩ | hk⟩ | hacc)
        · exact absurd (hpq ▸ hsup) hnsup
        · exact Or.inl ⟨hsup, k, hk⟩
        · exact Or.inr hacc
    | some w0 =>
      rw [ih, exists_mem_insertProvider]
      have hsup : supportedProvider q := by
        cases q <;> simp [mkAdapter] at hq <;> simp [supportedProvider]
      constructor
      · rintro (⟨hsupp, k, hk⟩ | hpq | hacc)
        · exact Or.inl ⟨hsupp, k, Or.inr hk⟩
        · exact Or.inl ⟨hpq ▸ hsup, s, Or.inl ⟨hpq, rfl⟩⟩
        · exact Or.inr hacc
      · rintro (⟨hsupp, k, ⟨hpq, hks⟩ | hk⟩ | hacc)
        · exact Or.inr (Or.inl hpq)
        · exact Or.inl ⟨hsupp, k, hk⟩
        · exact Or.inr (Or.inr hacc)

/-- C6 (amended): a registry built from a credential map resolves a provider
to an adapter exactly when the provider is one of openai, anthropic or google
AND a credential for it was supplied; DeepSeek and Ollama resolve to nothing
even when a credential was supplied, because ProviderManager::new skips them
as unsupported. -/
theorem c6_manager_supported_providers (l : List (AiProvider × String)) (p : AiProvider) :
    ((ProviderManager.new l).get_provider p).isSome = true ↔
      (supportedProvider p ∧ ∃ k, (p, k) ∈ l) := by
  have h1 : ((ProviderManager.new l).get_provider p).isSome = true ↔
      ∃ w, (p, w) ∈ (ProviderManager.new l).providers := by
    simp only [ProviderManager.get_provider, Option.isSome_map', List.find?_isSome,
      decide_eq_true_eq]
    constructor
    · rintro ⟨⟨a, b⟩, hmem, hfst⟩
      dsimp only at hfst
      subst hfst
      exact ⟨b, hmem⟩
    · rintro ⟨w, hmem⟩
      exact ⟨(p, w), hmem, rfl⟩
  rw [h1]
  have h2 := mem_foldl_build l [] p
  simpa using h2

/-- C8: a default-credential lookup scoped to userA can only return a row
whose user_id is userA (with the requested provider and the default flag), so
it never returns a credential of any other user. -/
theorem c8_credential_isolation (keys : List ApiKey) (uA : String) (prov : AiProvider)
    (k : ApiKey) (h : getDefaultForProvider keys uA prov = some k) :
    k.user_id = uA ∧ k.provider = prov ∧ k.is_default = true ∧
    ∀ uB, uB ≠ uA → k.user_id ≠ uB := by
  have hp := List.find?_some h
  simp only [Bool.and_eq_true, decide_eq_true_eq] at hp
  obtain ⟨⟨hu, hprov⟩, hdef⟩ := hp
  exact ⟨hu, hprov, hdef, fun uB hne hk => hne (hk ▸ hu.symm ▸ rfl)⟩

/-- Witness for C8 at the concrete store: the lookup returns alice's own
default openai key. -/
theorem c8_credential_isolation_witness :
    aliceKey.user_id = "alice" ∧ aliceKey.provider = .openAI ∧
    aliceKey.is_default = true ∧ ∀ uB, uB ≠ "alice" → aliceKey.user_id ≠ uB :=
  c8_credential_isolation exampleDb.api_keys "alice" .openAI aliceKey rfl

/-- Fields of a chat row found by the repository chat lookup. -/
theorem chatRepoGet_props {db : DbState} {cid : Nat} {uid : String} {c : Chat}
    (h : chatRepoGet db cid uid = some c) :
    c ∈ db.chats ∧ c.id = cid ∧ c.user_id = uid ∧ c.deleted_at = none := by
  have hp := List.find?_some h
  simp only [Bool.and_eq_true, decide_eq_true_eq] at hp
  exact ⟨List.mem_of_find?_eq_some h, hp.1.1, hp.1.2, hp.2⟩

/-- The message-repository listing succeeds whenever a chat row with the given
id and owner exists (soft-deleted or not), returning the chat's messages
sorted by sequence number. -/
theorem listByChat_ok_of_chat {db : DbState} {cid : Nat} {uid : String} {c : Chat}
    (hmem : c ∈ db.chats) (hid : c.id = cid) (huid : c.user_id = uid) :
    listByChat db cid uid =
      .ok ((db.messages.filter (fun m => decide (m.chat_id = cid))).mergeSort
        (fun a b => decide (a.sequence_number ≤ b.sequence_number))) := by
  have h : (db.chats.find?
      (fun c => decide (c.id = cid) && decide (c.user_id = uid))).isSome = true := by
    rw [List.find?_isSome]
    exact ⟨c, hmem, by simp [hid, huid]⟩
  obtain ⟨c0, hc0⟩ := Option.isSome_iff_exists.1 h
  simp [listByChat, hc0]

/-- C5 counterexample: a soft-deleted chat owned by the caller does NOT make
the context builder fail with NotFound — the chat check inside list_by_chat
omits the deleted_at filter, so assembly succeeds on chat 2 although its
deleted_at is set. -/
theorem c5_counterexample :
    (∃ c ∈ exampleDb.chats, c.id = 2 ∧ c.user_id = "alice" ∧ c.deleted_at ≠ none) ∧
    ∃ l, buildContext exampleDb 2 "alice" "hi" = .ok l ∧
      l.getLast? = some (ChatMessage.mk .user "hi") := by
  refine ⟨⟨deletedChat, by simp [exampleDb], rfl, rfl, by simp [deletedChat]⟩, ?_⟩
  have h := @listByChat_ok_of_chat exampleDb 2 "alice" deletedChat
    (by simp [exampleDb]) rfl rfl
  refine ⟨((exampleDb.messages.filter (fun m => decide (m.chat_id = 2))).mergeSort
      (fun a b => decide (a.sequence_number ≤ b.sequence_number))).map
      (fun m => ChatMessage.mk m.role m.content) ++ [ChatMessage.mk .user "hi"], ?_, ?_⟩
  · simp [buildContext, h]
  · simp [List.getLast?_concat]

/-- C5 (amended): the context builder returns the chat's persisted messages
sorted by sequence_number ascending, mapped to the normalized shape, followed
by one user message holding the new text, and fails with NotFound when no
chat row with the requested id and owner exists; it does NOT itself reject
soft-deleted chats — those are rejected earlier by the completion handler's
chat lookup, which filters deleted_at and turns them into a 404. -/
theorem c5_build_context (db : DbState) (cid : Nat) (uid txt : String) :
    ((∀ c ∈ db.chats, ¬(c.id = cid ∧ c.user_id = uid)) →
      buildContext db cid uid txt = .error "Chat not found") ∧
    (∀ c ∈ db.chats, c.id = cid → c.user_id = uid →
      ∃ sorted,
        listByChat db cid uid = .ok sorted ∧
        sorted.Perm (db.messages.filter fun m => decide (m.chat_id = cid)) ∧
        sorted.Pairwise (fun a b => a.sequence_number ≤ b.sequence_number) ∧
        buildContext db cid uid txt =
          .ok (sorted.map (fun m => ChatMessage.mk m.role m.content) ++
            [ChatMessage.mk .user txt])) ∧
    (∀ (payload : ChatPayload) (providerResult : Except Unit ChatResponse),
      chatRepoGet db payload.chat_id uid = none →
      chat db uid payload providerResult = (.error .notFound, db)) := by
  refine ⟨?_, ?_, ?_⟩
  · intro h
    have hf : db.chats.find?
        (fun c => decide (c.id = cid) && decide (c.user_id = uid)) = none := by
      rw [List.find?_eq_none]
      intro c hc
      have := h c hc
      simp only [Bool.and_eq_true, decide_eq_true_eq]
      tauto
    simp [buildContext, listByChat, hf]
  · intro c hmem hid huid
    refine ⟨_, listByChat_ok_of_chat hmem hid huid, List.mergeSort_perm _ _, ?_, ?_⟩
    · refine List.Pairwise.imp ?_ (List.sorted_mergeSort ?_ ?_ _)
      · intro a b h
        simpa using h
      · intro a b c hab hbc
        simp only [decide_eq_true_eq] at hab hbc ⊢
        omega
      · intro a b
        simp only [Bool.or_eq_true, decide_eq_true_eq]
        omega
    · simp [buildContext, listByChat_ok_of_chat hmem hid huid]
  · intro payload providerResult h
    simp [chat, h]

/-- Witness for C5 on the concrete store: assembling chat 1 for alice returns
the two stored turns in order followed by the new user turn. -/
theorem c5_build_context_witness :
    ∃ sorted,
      listByChat exampleDb 1 "alice" = .ok sorted ∧
      sorted.Perm (exampleDb.messages.filter fun m => decide (m.chat_id = 1)) ∧
      sorted.Pairwise (fun a b => a.sequence_number ≤ b.sequence_number) ∧
      buildContext exampleDb 1 "alice" "hi" =
        .ok (sorted.map (fun m => ChatMessage.mk m.role m.content) ++
          [ChatMessage.mk .user "hi"]) :=
  (c5_build_context exampleDb 1 "alice" "hi").2.1 aliceChat (by simp [exampleDb]) rfl rfl

/-- C1: if the provider call fails, the handler leaves the store untouched on
every path (in particular zero message rows are created), and — whenever the
request has passed validation, credential resolution and adapter lookup, so
that the provider call is actually reached — it returns the 500-class server
error. -/
theorem c1_no_write_on_provider_failure (db : DbState) (uid : String)
    (payload : ChatPayload) :
    ((chat db uid payload (.error ())).2 = db) ∧
    (∀ c prov key,
      chatRepoGet db payload.chat_id uid = some c →
      parseProvider payload.model_provider = some prov →
      getDefaultForProvider db.api_keys uid prov = some key →
      ((ProviderManager.new [(prov, key.encrypted_key)]).get_provider prov).isSome = true →
      (chat db uid payload (.error ())).1 = .error .internalServerError) := by
  constructor
  · unfold chat
    rcases hg : chatRepoGet db payload.chat_id uid with _ | c
    · simp
    simp only
    rcases hp : parseProvider payload.model_provider with _ | prov
    · simp
    simp only
    rcases hk : getDefaultForProvider db.api_keys uid prov with _ | key
    · simp
    simp only
    rcases hl : listByChat db payload.chat_id uid with e | msgs
    · simp
    simp only
    rcases hw : (ProviderManager.new [(prov, key.encrypted_key)]).get_provider prov
      with _ | w
    · simp
    simp
  · intro c prov key hg hp hk hw
    obtain ⟨hmem, hid, huid, _⟩ := chatRepoGet_props hg
    obtain ⟨w, hw'⟩ := Option.isSome_iff_exists.1 hw
    simp only [chat, hg, hp, hk, listByChat_ok_of_chat hmem hid huid, hw']

/-- Witness for C1: a failing provider call on the populated store returns 500
and leaves the store exactly as it was. -/
theorem c1_no_write_on_provider_failure_witness :
    (chat exampleDb "alice" examplePayload (.error ())).2 = exampleDb ∧
    (chat exampleDb "alice" examplePayload (.error ())).1 = .error .internalServerError :=
  ⟨(c1_no_write_on_provider_failure exampleDb "alice" examplePayload).1,
   (c1_no_write_on_provider_failure exampleDb "alice" examplePayload).2
     aliceChat .openAI aliceKey rfl rfl rfl rfl⟩

/-- C7: the handler maps each failure class to its specified status — chat
absent (or not owned, or soft-deleted) gives 404; an unrecognized provider
string gives 400; a missing default credential gives 400; a provider call
failure gives 500. -/
theorem c7_error_status_mapping (db : DbState) (uid : String) (payload : ChatPayload)
    (providerResult : Except Unit ChatResponse) :
    (chatRepoGet db payload.chat_id uid = none →
      chat db uid payload providerResult = (.error .notFound, db)) ∧
    (∀ c, chatRepoGet db payload.chat_id uid = some c →
      parseProvider payload.model_provider = none →
      chat db uid payload providerResult = (.error .badRequest, db)) ∧
    (∀ c prov, chatRepoGet db payload.chat_id uid = some c →
      parseProvider payload.model_provider = some prov →
      getDefaultForProvider db.api_keys uid prov = none →
      chat db uid payload providerResult = (.error .badRequest, db)) ∧
    (∀ c prov key, chatRepoGet db payload.chat_id uid = some c →
      parseProvider payload.model_provider = some prov →
      getDefaultForProvider db.api_keys uid prov = some key →
      ((ProviderManager.new [(prov, key.encrypted_key)]).get_provider prov).isSome = true →
      providerResult = .error () →
      (chat db uid payload providerResult).1 = .error .internalServerError) := by
  refine ⟨?_, ?_, ?_, ?_⟩
  · intro h
    simp [chat, h]
  · intro c hg hp
    simp [chat, hg, hp]
  · intro c prov hg hp hk
    simp [chat, hg, hp, hk]
  · intro c prov key hg hp hk hw hres
    subst hres
    obtain ⟨hmem, hid, huid, _⟩ := chatRepoGet_props hg
    obtain ⟨w, hw'⟩ := Option.isSome_iff_exists.1 hw
    simp only [chat, hg, hp, hk, listByChat_ok_of_chat hmem hid huid, hw']

/-- Witness for C7 on concrete stores: a missing credential gives 400, a
missing chat gives 404, an unknown provider string gives 400, and a failed
provider call gives 500. -/
theorem c7_error_status_mapping_witness :
    chat { exampleDb with api_keys := [] } "alice" examplePayload (.ok exampleResponse) =
      (.error .badRequest, { exampleDb with api_keys := [] }) ∧
    chat dbEmpty "alice" examplePayload (.ok exampleResponse) = (.error .notFound, dbEmpty) ∧
    chat exampleDb "alice" { examplePayload with model_provider := "bedrock" }
      (.ok exampleResponse) = (.error .badRequest, exampleDb) ∧
    (chat exampleDb "alice" examplePayload (.error ())).1 = .error .internalServerError :=
  ⟨(c7_error_status_mapping { exampleDb with api_keys := [] } "alice" examplePayload
      (.ok exampleResponse)).2.2.1 aliceChat .openAI rfl rfl rfl,
   (c7_error_status_mapping dbEmpty "alice" examplePayload (.ok exampleResponse)).1 rfl,
   (c7_error_status_mapping exampleDb "alice"
      { examplePayload with model_provider := "bedrock" } (.ok exampleResponse)).2.1
      aliceChat rfl rfl,
   (c7_error_status_mapping exampleDb "alice" examplePayload (.error ())).2.2.2
      aliceChat .openAI aliceKey rfl rfl rfl rfl rfl⟩

/-- C10: the streaming entry point delegates to the non-streaming handler and
so produces the same completion and the same store; the provider request is
always built with stream = false regardless of the payload; and the shared
provider stream body yields exactly one done-marked chunk whose content is
the non-streaming response content, propagating errors unchanged. -/
theorem c10_stream_equals_chat (db : DbState) (uid : String) (payload : ChatPayload)
    (providerResult : Except Unit ChatResponse) :
    stream_chat db uid payload providerResult = chat db uid payload providerResult ∧
    (∀ msgs, (buildAiRequest payload msgs).stream = false) ∧
    (∀ r : ChatResponse, streamChunks (.ok r) =
      .ok [{ content := r.content, done := true, model := some r.model }]) ∧
    (∀ l, streamChunks providerResult = .ok l →
      ∃ r, providerResult = .ok r ∧ l.length = 1 ∧
        ∀ ch ∈ l, ch.done = true ∧ ch.content = r.content) ∧
    (∀ e, streamChunks (.error e) = .error e) := by
  refine ⟨rfl, fun _ => rfl, fun _ => rfl, ?_, fun _ => rfl⟩
  intro l h
  cases providerResult with
  | error e => simp [streamChunks] at h
  | ok r =>
    refine ⟨r, rfl, ?_, ?_⟩ <;> simp [streamChunks] at h <;> simp [h.symm]

/-- Witness for C10: the single chunk produced for the example response is
done-marked and carries its content. -/
theorem c10_stream_equals_chat_witness :
    ∃ r, (Except.ok exampleResponse : Except Unit ChatResponse) = .ok r ∧
      [ChatResponseChunk.mk exampleResponse.content true (some exampleResponse.model)].length
        = 1 ∧
      ∀ ch ∈ [ChatResponseChunk.mk exampleResponse.content true (some exampleResponse.model)],
        ch.done = true ∧ ch.content = r.content :=
  (c10_stream_equals_chat exampleDb "alice" examplePayload
    (.ok exampleResponse)).2.2.2.1 _ rfl

/-! Lemmas for the single-default invariant (C4). -/

theorem countP_id_le_one (l : List ApiKey) (v : Nat) :
    (l.map (fun k => k.id)).Nodup →
    l.countP (fun k => decide (k.id = v)) ≤ 1 := by
  induction l with
  | nil => intro _; simp
  | cons a l ih =>
    intro hnodup
    simp only [List.map_cons, List.nodup_cons] at hnodup
    obtain ⟨hna, hnd⟩ := hnodup
    by_cases ha : a.id = v
    · rw [List.countP_cons_of_pos _ _ (by simpa using ha)]
      have h0 : l.countP (fun k => decide (k.id = v)) = 0 := by
        rw [List.countP_eq_zero]
        intro b hb
        simp only [decide_eq_true_eq]
        intro hbv
        exact hna (List.mem_map.2 ⟨b, hb, hbv.trans ha.symm⟩)
      omega
    · rw [List.countP_cons_of_neg _ _ (by simpa using ha)]
      exact ih hnd

theorem setDefaultOn_id (id : Nat) (k : ApiKey) : (setDefaultOn id k).id = k.id := by
  by_cases h : k.id = id <;> simp [setDefaultOn, h]

theorem clearDefaultFor_id (uid : String) (prov : AiProvider) (k : ApiKey) :
    (clearDefaultFor uid prov k).id = k.id := by
  by_cases h : k.user_id = uid ∧ k.provider = prov <;> simp [clearDefaultFor, h]

theorem setDefaultOn_user (id : Nat) (k : ApiKey) :
    (setDefaultOn id k).user_id = k.user_id := by
  by_cases h : k.id = id <;> simp [setDefaultOn, h]

theorem clearDefaultFor_user (uid : String) (prov : AiProvider) (k : ApiKey) :
    (clearDefaultFor uid prov k).user_id = k.user_id := by
  by_cases h : k.user_id = uid ∧ k.provider = prov <;> simp [clearDefaultFor, h]

theorem setDefaultOn_prov (id : Nat) (k : ApiKey) :
    (setDefaultOn id k).provider = k.provider := by
  by_cases h : k.id = id <;> simp [setDefaultOn, h]

theorem clearDefaultFor_prov (uid : String) (prov : AiProvider) (k : ApiKey) :
    (clearDefaultFor uid prov k).provider = k.provider := by
  by_cases h : k.user_id = uid ∧ k.provider = prov <;> simp [clearDefaultFor, h]

/-- The is_default flag of a row after the two UPDATE statements of
set_default ran over it. -/
theorem comp_default (id : Nat) (uid : String) (prov : AiProvider) (k : ApiKey) :
    (setDefaultOn id (clearDefaultFor uid prov k)).is_default = true →
      k.id = id ∨ (¬(k.user_id = uid ∧ k.provider = prov) ∧ k.is_default = true) := by
  by_cases h1 : k.user_id = uid ∧ k.provider = prov <;>
    by_cases h2 : k.id = id <;>
    simp [setDefaultOn, clearDefaultFor, h1, h2]

/-- One credential mutation preserves id freshness, primary-key uniqueness and
the single-default invariant, provided it satisfies the validity restrictions. -/
theorem applyKeyOp_preserves (db : DbState) (op : KeyOp)
    (hfresh : KeysFresh db) (hnodup : KeyIdsNodup db) (hinv : AtMostOneDefault db)
    (hop : opValid db op) :
    KeysFresh (applyKeyOp db op) ∧ KeyIdsNodup (applyKeyOp db op) ∧
      AtMostOneDefault (applyKeyOp db op) := by
  cases op with
  | create dto =>
    simp only [opValid] at hop
    refine ⟨?_, ?_, ?_⟩
    · intro k hk
      simp only [applyKeyOp, createApiKey, List.mem_append, List.mem_singleton] at hk
      simp only [applyKeyOp, createApiKey]
      rcases hk with hk | hk
      · have := hfresh k hk; omega
      · subst hk; simp
    · simp only [KeyIdsNodup, applyKeyOp, createApiKey] at hnodup ⊢
      rw [List.map_append, List.nodup_append]
      refine ⟨hnodup, by simp, ?_⟩
      intro a ha hb
      simp only [List.map_cons, List.map_nil, List.mem_singleton] at hb
      obtain ⟨x, hx, hxa⟩ := List.mem_map.1 ha
      have := hfresh x hx
      omega
    · intro u p
      simp only [applyKeyOp, createApiKey, defaultKeys, List.filter_append]
      have hnil : List.filter
          (fun k : ApiKey => decide (k.user_id = u) && decide (k.provider = p) && k.is_default)
          [⟨db.next_id, dto.user_id, dto.provider, dto.encrypted_key, dto.is_default⟩] =
          [] := by
        simp [hop]
      rw [hnil, List.append_nil]
      exact hinv u p
  | setDef id uid =>
    simp only [opValid] at hop
    simp only [applyKeyOp]
    cases hfind : db.api_keys.find? (fun k => decide (k.id = id)) with
    | none =>
      simp only [setDefault, hfind, Option.getD_none]
      exact ⟨hfresh, hnodup, hinv⟩
    | some key =>
      have hkeymem : key ∈ db.api_keys := List.mem_of_find?_eq_some hfind
      have hkeyid : key.id = id := by simpa using List.find?_some hfind
      have hkeyuser : key.user_id = uid := hop key hkeymem hkeyid
      simp only [setDefault, hfind, Option.getD_some]
      have hidmap :
          ((db.api_keys.map (clearDefaultFor uid key.provider)).map
            (setDefaultOn id)).map (fun k => k.id) = db.api_keys.map (fun k => k.id) := by
        simp only [List.map_map]
        exact List.map_congr_left fun a _ => by
          simp [Function.comp, setDefaultOn_id, clearDefaultFor_id]
      refine ⟨?_, ?_, ?_⟩
      · intro k hk
        simp only [List.mem_map] at hk
        obtain ⟨x, ⟨y, hy, rfl⟩, rfl⟩ := hk
        show (setDefaultOn id (clearDefaultFor uid key.provider y)).id < _
        rw [setDefaultOn_id, clearDefaultFor_id]
        exact hfresh y hy
      · simp only [KeyIdsNodup] at hnodup ⊢
        rw [hidmap]
        exact hnodup
      · intro u p
        rw [defaultKeys, ← List.countP_eq_length_filter, List.countP_map,
          List.countP_map]
        by_cases hcase : u = uid ∧ p = key.provider
        · obtain ⟨hu, hp⟩ := hcase
          have hmono : ∀ x ∈ db.api_keys,
              ((fun k => decide (k.user_id = u) && decide (k.provider = p) && k.is_default) ∘
                setDefaultOn id ∘ clearDefaultFor uid key.provider) x = true →
              (fun k => decide (k.id = id)) x = true := by
            intro x _ hx
            simp only [Function.comp, Bool.and_eq_true, decide_eq_true_eq] at hx ⊢
            obtain ⟨⟨hxu, hxp⟩, hxd⟩ := hx
            rcases comp_default id uid key.provider x hxd with h | ⟨hnot, _⟩
            · exact h
            · rw [setDefaultOn_user, clearDefaultFor_user] at hxu
              rw [setDefaultOn_prov, clearDefaultFor_prov] at hxp
              exact absurd ⟨hxu.trans hu, hxp.trans hp⟩ hnot
          exact le_trans (List.countP_mono_left hmono)
            (countP_id_le_one db.api_keys id hnodup)
        · have hmono : ∀ x ∈ db.api_keys,
              ((fun k => decide (k.user_id = u) && decide (k.provider = p) && k.is_default) ∘
                setDefaultOn id ∘ clearDefaultFor uid key.provider) x = true →
              (fun k => decide (k.user_id = u) && decide (k.provider = p) && k.is_default)
                x = true := by
            intro x hxmem hx
            simp only [Function.comp, Bool.and_eq_true, decide_eq_true_eq] at hx ⊢
            obtain ⟨⟨hxu, hxp⟩, hxd⟩ := hx
            rw [setDefaultOn_user, clearDefaultFor_user] at hxu
            rw [setDefaultOn_prov, clearDefaultFor_prov] at hxp
            rcases comp_default id uid key.provider x hxd with h | ⟨_, hdef⟩
            · have hxkey : x = key :=
                List.inj_on_of_nodup_map hnodup hxmem hkeymem (h.trans hkeyid.symm)
              subst hxkey
              exact absurd ⟨hxu.symm.trans (hxu.symm ▸ hkeyuser),
                hxp.symm.trans (hxp.symm ▸ rfl)⟩ hcase
            · exact ⟨⟨hxu, hxp⟩, hdef⟩
          exact le_trans (List.countP_mono_left hmono)
            (by rw [List.countP_eq_length_filter]; exact hinv u p)

/-- The single-default invariant is preserved across any valid sequence of
credential mutations. -/
theorem atMostOne_applyKeyOps {db : DbState} {ops : List KeyOp}
    (hvalid : ValidSeq db ops) (hfresh : KeysFresh db) (hnodup : KeyIdsNodup db)
    (hinv : AtMostOneDefault db) : AtMostOneDefault (applyKeyOps db ops) := by
  induction hvalid with
  | nil db => simpa [applyKeyOps] using hinv
  | cons hop hrest ih =>
    obtain ⟨h1, h2, h3⟩ := applyKeyOp_preserves _ _ hfresh hnodup hinv hop
    simpa [applyKeyOps] using ih h1 h2 h3

/-- An openai credential DTO for alice that claims the default flag. -/
def c4dtoDefault : CreateUserApiKeyDto :=
  { user_id := "alice", provider := .openAI, encrypted_key := "k1", is_default := true }

/-- An openai credential DTO for alice without the default flag. -/
def c4dtoPlain : CreateUserApiKeyDto :=
  { user_id := "alice", provider := .openAI, encrypted_key := "k2", is_default := false }

/-- C4 counterexample: two repository-level creates that both carry
is_default = true leave alice with TWO default openai credentials — the
repository create is a plain insert and clears nothing, so the claimed
invariant fails over create/setDefault sequences as stated. -/
theorem c4_counterexample :
    (defaultKeys (applyKeyOps dbEmpty
      [KeyOp.create c4dtoDefault, KeyOp.create c4dtoDefault]).api_keys
      "alice" .openAI).length = 2 := by
  decide

/-- C4 (amended): the single-default invariant holds after any sequence of
create and setDefault operations in which each create carries
is_default = false and each setDefault is invoked by the owner of its target
credential (as the only call site does); a setDefault whose transaction rolls
back leaves the store unchanged, and a successful setDefault sets the target
row's flag and clears the flag on every other credential of that
(user, provider) pair. Without the restrictions the invariant is false: a
create carrying is_default = true is a plain insert that can produce a second
default. -/
theorem c4_single_default_invariant (db : DbState) :
    (∀ ops, KeysFresh db → KeyIdsNodup db → AtMostOneDefault db → ValidSeq db ops →
      AtMostOneDefault (applyKeyOps db ops)) ∧
    (∀ id uid, setDefault db id uid = none → applyKeyOp db (.setDef id uid) = db) ∧
    (∀ id uid key db2,
      db.api_keys.find? (fun k => decide (k.id = id)) = some key →
      setDefault db id uid = some db2 →
      ∀ k ∈ db2.api_keys,
        (k.id = id → k.is_default = true) ∧
        (k.id ≠ id → k.user_id = uid → k.provider = key.provider →
          k.is_default = false)) := by
  refine ⟨?_, ?_, ?_⟩
  · intro ops h1 h2 h3 hv
    exact atMostOne_applyKeyOps hv h1 h2 h3
  · intro id uid h
    simp [applyKeyOp, h]
  · intro id uid key db2 hfind hset k hk
    simp only [setDefault, hfind, Option.some.injEq] at hset
    subst hset
    simp only [List.mem_map] at hk
    obtain ⟨x, ⟨y, _, rfl⟩, rfl⟩ := hk
    constructor
    · intro hid
      rw [setDefaultOn_id, clearDefaultFor_id] at hid
      simp [setDefaultOn, clearDefaultFor_id, hid]
    · intro hid huser hprov
      rw [setDefaultOn_id, clearDefaultFor_id] at hid
      rw [setDefaultOn_user, clearDefaultFor_user] at huser
      rw [setDefaultOn_prov, clearDefaultFor_prov] at hprov
      simp [setDefaultOn, clearDefaultFor, clearDefaultFor_id, hid, huser, hprov]

/-- Witness for C4: starting from the empty store, a create without the
default flag followed by an owner-invoked setDefault keeps at most one
default per pair. -/
theorem c4_single_default_invariant_witness :
    AtMostOneDefault (applyKeyOps dbEmpty
      [KeyOp.create c4dtoPlain, KeyOp.setDef 0 "alice"]) :=
  (c4_single_default_invariant dbEmpty).1
    [KeyOp.create c4dtoPlain, KeyOp.setDef 0 "alice"]
    (by intro k hk; simp [dbEmpty] at hk)
    (by simp [dbEmpty, KeyIdsNodup])
    (by intro u p; simp [dbEmpty, defaultKeys])
    (ValidSeq.cons (by simp [opValid, c4dtoPlain])
      (ValidSeq.cons (by
        intro k hk hid
        simp [applyKeyOp, createApiKey, dbEmpty, c4dtoPlain] at hk
        simp [hk])
        (ValidSeq.nil _)))

end T3Chat
